import Mathlib

/-!
Shallow embedding of `elasticsearch/x-dev-tools/create_bwc_indexes.py`, the
backward-compatibility fixture generator of this repository, together with
proofs about the behaviours its specification describes.

Modelling conventions:
* Python exceptions become the inductive `PyErr`; fallible steps return
  `Except PyErr _` paired with a trace of observable events (`Ev`).
* External effects (socket probes, subprocess spawns, HTTP calls, filesystem
  operations) are driven by an explicit environment `Env` of outcomes and are
  recorded in the event trace in program order.
* Python strings are Lean `String`s; Python's string and list comparison
  (lexicographic over code points / elements) is modelled explicitly by
  `pyCharsLt`, `pyStrLt` and `pyListLt`.
-/

namespace Bwc

/-- Kinds of Python exceptions raised by the script. -/
inductive PyErr where
  /-- a bare `raise Exception(msg)` -/
  | exc (msg : String)
  /-- `RuntimeError(msg)` -/
  | runtimeError (msg : String)
  /-- `AssertionError` with an (already formatted) message -/
  | assertionError (msg : String)
  /-- `NameError`: the given name is not defined -/
  | nameError (nm : String)
  /-- `subprocess.CalledProcessError` for the given command line -/
  | calledProcessError (cmd : List String)
  deriving Repr, DecidableEq

/-- Observable events of one run, in program order. -/
inductive Ev where
  /-- a `logging.info` call -/
  | log (msg : String)
  /-- `subprocess.check_call` on `bin/plugin <sub> <name>` (spawns a process) -/
  | pluginCmd (releaseDir sub nm : String)
  /-- `os.system(cmd)` inside `run` (spawns a shell) -/
  | runCmd (cmd : String)
  /-- `sock.connect_ex(('localhost', port))` probe in `start_node` -/
  | portProbe (port : Nat)
  /-- `subprocess.Popen` of the elasticsearch node -/
  | spawnNode (releaseDir clusterName dataDir : String)
  /-- `node.terminate()` -/
  | terminate
  /-- `node.wait()` -/
  | waitExit
  /-- `tempfile.mkdtemp()` returning the given directory -/
  | mkdtemp (d : String)
  /-- `shutil.rmtree(d)` -/
  | rmtree (d : String)
  /-- `requests.put(url, ...)` -/
  | httpPut (url : String)
  /-- `client.index(index=..., ...)` -/
  | indexDoc (index : String)
  /-- `client.cluster.health(...)` outside the readiness loop -/
  | healthCheck
  /-- one iteration of the readiness loop: construct client + health call -/
  | attemptConnect (i : Nat)
  /-- `time.sleep(n)` -/
  | sleep (n : Nat)
  /-- `os.remove(p)` -/
  | removeFile (p : String)
  /-- `os.chdir(d)` -/
  | chdir (d : String)
  /-- `subprocess.check_call('zip -r <zipfile> <directory>', shell=True)` -/
  | zipCall (zipfile dir : String)
  deriving Repr, DecidableEq

/-- Python code-point comparison of strings (`a < b` on `str`), on the
underlying character lists. -/
def pyCharsLt : List Char → List Char → Bool
  | [], [] => false
  | [], _ :: _ => true
  | _ :: _, [] => false
  | a :: as, b :: bs =>
    if a.toNat < b.toNat then true
    else if b.toNat < a.toNat then false
    else pyCharsLt as bs

/-- Python `a < b` on strings. -/
def pyStrLt (a b : String) : Bool := pyCharsLt a.data b.data

/-- Python `a < b` on lists of strings: lexicographic over `pyStrLt`. -/
def pyListLt : List String → List String → Bool
  | [], [] => false
  | [], _ :: _ => true
  | _ :: _, [] => false
  | a :: as, b :: bs =>
    if pyStrLt a b then true
    else if pyStrLt b a then false
    else pyListLt as bs

/-- Python `str.lower()` on one character (ASCII range, which is all the
script ever lowercases). -/
def pyCharLower (c : Char) : Char :=
  if 65 ≤ c.toNat ∧ c.toNat ≤ 90 then Char.ofNat (c.toNat + 32) else c

/-- Python `s.lower()`. -/
def pyLower (s : String) : String := String.mk (s.data.map pyCharLower)

/-- `re.split('[.-]', version)`: split on every dot or dash, keeping empty
pieces, as a structural recursion over the character list (`acc` is the
current piece, reversed). -/
def splitDotDash : List Char → List Char → List String
  | [], acc => [String.mk acc.reverse]
  | c :: cs, acc =>
    if c = '.' ∨ c = '-' then String.mk acc.reverse :: splitDotDash cs []
    else splitDotDash cs (c :: acc)

/-- `parse_version` (create_bwc_indexes.py lines 202-209): split on `[.-]`,
pad a 3-component version with the qualifier `GA`, lowercase every component.
The source's final `assert len(splitted) == 4` is modelled at the call site
in `oneVersion` (it raises before the result is used). -/
def parse_version (version : String) : List String :=
  let splitted := splitDotDash version.data []
  let splitted := if splitted.length = 3 then splitted ++ ["GA"] else splitted
  splitted.map pyLower

/-- Whether the second character list is an initial segment of the first. -/
def charsBeginWith : List Char → List Char → Bool
  | _, [] => true
  | [], _ :: _ => false
  | a :: as, b :: bs => if a = b then charsBeginWith as bs else false

/-- Python `os.path.isabs` (POSIX). -/
def os_path_isabs (p : String) : Bool := charsBeginWith p.data ['/']

/-- Python `os.path.join` for two components (POSIX; a later absolute
component discards the earlier one). -/
def os_path_join (a b : String) : String :=
  if os_path_isabs b then b
  else if charsBeginWith a.data.reverse ['/'] ∨ a = "" then a ++ b
  else a ++ "/" ++ b

/-- Python `os.path.abspath` relative to the process working directory
`cwd`. Path normalisation (`normpath`) is not modelled; no claim depends
on it. -/
def os_path_abspath (cwd p : String) : String :=
  if os_path_isabs p then p else os_path_join cwd p

/-- The filesystem-and-process state the script observes: the archive files
present (path to an abstract content id) and the working directory. -/
structure Fs where
  files : String → Option Nat
  cwd : String

/-- `compress` (lines 160-169). `zipOk` is whether the external `zip`
utility exits zero; `zipContent` is the abstract content it would write.
The source removes a pre-existing archive, changes into `tmp_dir`, runs
`zip` via `subprocess.check_call` and only then changes back: there is no
try/finally, so a non-zero `zip` exit raises `CalledProcessError` with the
working directory still `tmp_dir`. -/
def compress (zipOk : Bool) (zipContent : Nat) (fs : Fs)
    (tmp_dir output_dir zipfile directory : String) :
    Except PyErr Unit × Fs × List Ev :=
  let abs_output_dir := os_path_abspath fs.cwd output_dir
  let zipFile := os_path_join abs_output_dir zipfile
  let st :=
    if (fs.files zipFile).isSome then
      ({ fs with files := fun p => if p = zipFile then none else fs.files p },
       [Ev.removeFile zipFile])
    else (fs, ([] : List Ev))
  let fs1 := st.1
  let olddir := fs1.cwd
  let fs2 := { fs1 with cwd := tmp_dir }
  let evs := st.2 ++ [Ev.chdir tmp_dir, Ev.zipCall zipFile directory]
  if zipOk then
    let fs3 := { fs2 with
      files := fun p => if p = zipFile then some zipContent else fs2.files p,
      cwd := olddir }
    (Except.ok (), fs3, evs ++ [Ev.chdir olddir])
  else
    (Except.error (PyErr.calledProcessError ["zip", "-r", zipFile, directory]),
     fs2, evs)

/-- `compress_index` (lines 157-158): archive the `data` subdirectory into
`<output_dir>/x-pack-<version>.zip`. -/
def compress_index (zipOk : Bool) (zipContent : Nat) (fs : Fs)
    (version tmp_dir output_dir : String) :
    Except PyErr Unit × Fs × List Ev :=
  compress zipOk zipContent fs tmp_dir output_dir
    ("x-pack-" ++ version ++ ".zip") "data"

/-- The deterministic archive path `compress_index` writes for a version,
as resolved against the working directory `cwd`. -/
def zipPath (cwd output_dir version : String) : String :=
  os_path_join (os_path_abspath cwd output_dir) ("x-pack-" ++ version ++ ".zip")

/-- Outcomes of every external effect of one per-version iteration. -/
structure Env where
  /-- `os.path.exists(release_dir)` in `main` -/
  releaseDirExists : Bool
  /-- exit status of `bin/plugin remove license` (true = exit 0) -/
  removeLicenseOk : Bool
  /-- exit status of `bin/plugin remove shield` -/
  removeShieldOk : Bool
  /-- exit status of `rm -rf <release_dir>/config/shield` -/
  rmConfigOk : Bool
  /-- exit status of `bin/plugin install license` -/
  installLicenseOk : Bool
  /-- exit status of `bin/plugin install shield` -/
  installShieldOk : Bool
  /-- exit status of the `esusers useradd` command -/
  useraddOk : Bool
  /-- whether the probe connect to HTTP port 9200 succeeds (port busy) -/
  busyHttp : Bool
  /-- whether the probe connect to transport port 9300 succeeds -/
  busyTransport : Bool
  /-- whether readiness attempt `i` (client + cluster health) succeeds -/
  clientOk : Nat → Bool
  /-- HTTP status of `PUT /_shield/user/bwc_test_user` -/
  putUserStatus : Nat
  /-- HTTP status of `PUT /_shield/role/bwc_test_role` -/
  putRoleStatus : Nat
  /-- whether the final `.security` cluster-health call reports `timed_out` -/
  healthTimedOut : Bool
  /-- exit status of the `zip` utility -/
  zipCallOk : Bool
  /-- abstract content the `zip` utility writes on success -/
  zipContent : Nat

/-- `run_plugin` (lines 88-90): `subprocess.check_call` on
`<release_dir>/bin/plugin <plugin_cmd> <args>`; a non-zero exit raises
`CalledProcessError`. -/
def run_plugin (exitOk : Bool) (version release_dir plugin_cmd : String)
    (args : List String) : Except PyErr Unit × List Ev :=
  let _ := version
  let cmd := os_path_join release_dir "bin/plugin" :: plugin_cmd :: args
  let ev := [Ev.pluginCmd release_dir plugin_cmd (String.intercalate " " args)]
  if exitOk then (Except.ok (), ev)
  else (Except.error (PyErr.calledProcessError cmd), ev)

/-- `install_plugin` (lines 82-83). -/
def install_plugin (exitOk : Bool) (version release_dir plugin_name : String) :
    Except PyErr Unit × List Ev :=
  run_plugin exitOk version release_dir "install" [plugin_name]

/-- `remove_plugin` (lines 85-86). -/
def remove_plugin (exitOk : Bool) (version release_dir plugin_name : String) :
    Except PyErr Unit × List Ev :=
  run_plugin exitOk version release_dir "remove" [plugin_name]

/-- `run` (lines 211-217): `os.system(command)`; a non-zero status raises
`RuntimeError('    FAILED: ' + command)`. Environment-variable export is
not modelled (`main` never passes `env_vars`). -/
def run (exitOk : Bool) (command : String) : Except PyErr Unit × List Ev :=
  if exitOk then (Except.ok (), [Ev.runCmd command])
  else (Except.error (PyErr.runtimeError ("    FAILED: " ++ command)),
        [Ev.runCmd command])

/-- `shutdown_node` (lines 197-200): log, `terminate()`, `wait()`; none of
these raise. -/
def shutdown_node : List Ev :=
  [Ev.log "Shutting down node", Ev.terminate, Ev.waitExit]

/-- `start_node` (lines 58-80): probe the HTTP port 9200, then the
transport port 9300 with `connect_ex`; if either connects, raise before the
node `Popen`; otherwise spawn the node. -/
def start_node (env : Env) (version release_dir data_dir : String) :
    Except PyErr Unit × List Ev :=
  if env.busyHttp then
    (Except.error (PyErr.exc "Elasticsearch instance already running on port 9200"),
     [Ev.portProbe 9200])
  else if env.busyTransport then
    (Except.error (PyErr.exc "Elasticsearch instance already running on port 9300"),
     [Ev.portProbe 9200, Ev.portProbe 9300])
  else
    (Except.ok (),
     [Ev.portProbe 9200, Ev.portProbe 9300,
      Ev.spawnNode release_dir ("bwc_index_" ++ version) data_dir])

/-- The readiness loop of `create_client` (lines 92-103), with `fuel`
iterations left and `i` the index of the current attempt. Each iteration
constructs the client and issues the health call (`attemptConnect`); on
success it returns immediately, on any exception it logs, swallows and
sleeps one second. When the loop exhausts, the source runs
`assert False, 'Timed out waiting for node for %s seconds' % timeout`;
the name `timeout` is not defined anywhere in the module, so formatting the
assert message raises `NameError` before any `AssertionError` exists. -/
def create_clientLoop (ok : Nat → Bool) : Nat → Nat → Except PyErr Unit × List Ev
  | 0, _ => (Except.error (PyErr.nameError "timeout"), [])
  | fuel + 1, i =>
    if ok i then (Except.ok (), [Ev.attemptConnect i])
    else
      let rest := create_clientLoop ok fuel (i + 1)
      (rest.1,
       Ev.attemptConnect i
         :: Ev.log "got exception while waiting for cluster"
         :: Ev.sleep 1 :: rest.2)

/-- `create_client` (lines 92-103): log, then `for _ in range(0, 30)` over
`create_clientLoop`. -/
def create_client (ok : Nat → Bool) : Except PyErr Unit × List Ev :=
  let loop := create_clientLoop ok 30 0
  (loop.1, Ev.log "Waiting for node to startup" :: loop.2)

/-- `generate_security_index` (lines 106-155): PUT the user, PUT the role
(each checked for status 200, both failure messages name the role URL as in
the source), index the five documents, then a `.security` cluster-health
call whose `timed_out` answer is asserted false. -/
def generate_security_index (env : Env) : Except PyErr Unit × List Ev :=
  let evsUser := [Ev.log "Add a group",
                  Ev.httpPut "http://localhost:9200/_shield/user/bwc_test_user"]
  if env.putUserStatus ≠ 200 then
    (Except.error (PyErr.exc
      "PUT http://localhost:9200/_shield/role/bwc_test_role did not succeed!"),
     evsUser)
  else
    let evsRole := evsUser ++
      [Ev.httpPut "http://localhost:9200/_shield/role/bwc_test_role"]
    if env.putRoleStatus ≠ 200 then
      (Except.error (PyErr.exc
        "PUT http://localhost:9200/_shield/role/bwc_test_role did not succeed!"),
       evsRole)
    else
      let evsDocs := evsRole ++
        [Ev.indexDoc "index1", Ev.indexDoc "index1",
         Ev.indexDoc "index2", Ev.indexDoc "index2",
         Ev.indexDoc "index3", Ev.log "Waiting for yellow", Ev.healthCheck]
      if env.healthTimedOut then
        (Except.error (PyErr.assertionError "cluster health timed out"), evsDocs)
      else (Except.ok (), evsDocs)

/-- Sequence two fallible traced steps: the second runs only if the first
succeeded (Python statement sequencing under exceptions). -/
def seqE (a b : Except PyErr Unit × List Ev) : Except PyErr Unit × List Ev :=
  match a with
  | (Except.error e, evs) => (Except.error e, evs)
  | (Except.ok _, evs) => (b.1, evs ++ b.2)

/-- The six steps of `main`'s try block before `start_node`
(lines 252-262): remove both plugins, delete the shield config, install
both plugins, create the admin user. -/
def preNodeSteps (env : Env) (version release_dir : String) :
    Except PyErr Unit × List Ev :=
  seqE (remove_plugin env.removeLicenseOk version release_dir "license")
    (seqE (remove_plugin env.removeShieldOk version release_dir "shield")
      (seqE (run env.rmConfigOk
              ("rm -rf " ++ os_path_join release_dir "config/shield"))
        (seqE (install_plugin env.installLicenseOk version release_dir "license")
          (seqE (install_plugin env.installShieldOk version release_dir "shield")
            (run env.useraddOk
              (os_path_join release_dir "bin/shield/esusers" ++
               "  useradd es_admin -r admin -p 0123456789"))))))

/-- The try block of one per-version iteration of `main` (lines 250-272).
Returns the outcome, whether the Python variable `node` is still non-None
when the block exits (i.e. the node was started and not yet shut down), the
filesystem state and the trace. -/
def tryBody (env : Env) (fs : Fs) (version release_dir tmp_dir data_dir output_dir : String) :
    Except PyErr Unit × Bool × Fs × List Ev :=
  match preNodeSteps env version release_dir with
  | (Except.error e, evs) => (Except.error e, false, fs, evs)
  | (Except.ok _, evsPre) =>
    match start_node env version release_dir data_dir with
    | (Except.error e, evsSn) => (Except.error e, false, fs, evsPre ++ evsSn)
    | (Except.ok _, evsSn) =>
      match create_client env.clientOk with
      | (Except.error e, evsCc) =>
        (Except.error e, true, fs, evsPre ++ evsSn ++ evsCc)
      | (Except.ok _, evsCc) =>
        match generate_security_index env with
        | (Except.error e, evsGen) =>
          (Except.error e, true, fs, evsPre ++ evsSn ++ evsCc ++ evsGen)
        | (Except.ok _, evsGen) =>
          let cp := compress_index env.zipCallOk env.zipContent fs version
                      tmp_dir output_dir
          (cp.1, false, cp.2.1,
           evsPre ++ evsSn ++ evsCc ++ evsGen ++ shutdown_node ++ cp.2.2)

/-- One iteration of `main`'s per-version loop (lines 234-278).
`tmpName` is the fresh directory `tempfile.mkdtemp()` returns. The source
first evaluates `parse_version(version)` (whose trailing assert raises on a
component count other than four), skips versions below `2.3.0` with a log
message, checks the release directory, creates the temp directory, runs the
try block, and in the `finally` block shuts the node down when `node` is
still non-None and always removes the temp directory. -/
def oneVersion (env : Env) (fs : Fs) (releases_dir output_dir version tmpName : String) :
    Except PyErr Unit × Fs × List Ev :=
  let pv := parse_version version
  if pv.length = 4 then
    if pyListLt pv (parse_version "2.3.0") then
      (Except.ok (), fs,
       [Ev.log ("version is " ++ version ++
         " but shield supports native realm oly from 2.3.0 on. nothing to do.")])
    else
      let evs0 := [Ev.log ("--> Creating x-pack index for " ++ version)]
      let release_dir := os_path_join releases_dir ("elasticsearch-" ++ version)
      if env.releaseDirExists then
        let data_dir := os_path_join tmpName "data"
        let tb := tryBody env fs version release_dir tmpName data_dir output_dir
        let evsFin := (if tb.2.1 then shutdown_node else []) ++ [Ev.rmtree tmpName]
        (tb.1, tb.2.2.1, evs0 ++ Ev.mkdtemp tmpName :: tb.2.2.2 ++ evsFin)
      else
        (Except.error (PyErr.runtimeError
          ("ES version " ++ version ++ " does not exist in " ++ releases_dir)),
         fs, evs0)
  else
    (Except.error (PyErr.assertionError "len(splitted) == 4"), fs, [])

/-- The node `Popen` events of a trace. -/
def isSpawn : Ev → Bool
  | Ev.spawnNode _ _ _ => true
  | _ => false

/-- The readiness-attempt events of a trace. -/
def isAttempt : Ev → Bool
  | Ev.attemptConnect _ => true
  | _ => false

/-- An environment in which every external effect succeeds. -/
def envAllOk : Env where
  releaseDirExists := true
  removeLicenseOk := true
  removeShieldOk := true
  rmConfigOk := true
  installLicenseOk := true
  installShieldOk := true
  useraddOk := true
  busyHttp := false
  busyTransport := false
  clientOk := fun _ => true
  putUserStatus := 200
  putRoleStatus := 200
  healthTimedOut := false
  zipCallOk := true
  zipContent := 7

/-- An empty filesystem with working directory `/start`. -/
def fs0 : Fs where
  files := fun _ => none
  cwd := "/start"

/-- Everything succeeds, but something is already listening on HTTP
port 9200. -/
def envBusyHttp : Env := { envAllOk with busyHttp := true }

/-- Everything succeeds until the `PUT` of the user returns HTTP 500. -/
def envPopFail : Env := { envAllOk with putUserStatus := 500 }

end Bwc

namespace Bwc

/-- Claim C6: normalized-tuple comparison of parsed version strings
satisfies the ordering test vectors `parse_version("1.2.3") <
parse_version("2.1.0")`, `parse_version("1.2.3") < parse_version("1.2.4")`
and `parse_version("1.1.0") < parse_version("1.2.0")`, exactly the
module-level assertions at lines 219-221 of the source. -/
theorem parse_version_ordering_vectors :
    pyListLt (parse_version "1.2.3") (parse_version "2.1.0") = true ∧
    pyListLt (parse_version "1.2.3") (parse_version "1.2.4") = true ∧
    pyListLt (parse_version "1.1.0") (parse_version "1.2.0") = true := by
  decide

/-- Bound on readiness attempts: the loop body of `create_client` makes at
most `fuel` attempts. -/
theorem create_clientLoop_attempts_le (ok : Nat → Bool) :
    ∀ fuel i, ((create_clientLoop ok fuel i).2.countP fun e => isAttempt e) ≤ fuel := by
  intro fuel
  induction fuel with
  | zero => intro i; simp [create_clientLoop]
  | succ n ih =>
    intro i
    by_cases h : ok i
    · simp [create_clientLoop, h, isAttempt, List.countP_cons]
    · have := ih (i + 1)
      simp only [create_clientLoop, h, if_neg, Bool.false_eq_true, if_false,
        List.countP_cons, isAttempt]
      simp [isAttempt] at this ⊢
      omega

/-- Claim C3 (code bug): the readiness poller makes at most 30 attempts and
failed attempts are each followed by a logged swallow and a 1-second sleep,
as the claim says; but when all 30 attempts fail, the source's
`assert False, 'Timed out waiting for node for %s seconds' % timeout`
formats its message with the undefined name `timeout`, so the run dies with
a `NameError` instead of the claimed "timed out waiting for node"
assertion failure. The concrete all-attempts-fail run exhibits it. -/
theorem create_client_exhaustion_raises_nameError :
    (∀ ok : Nat → Bool,
      ((create_client ok).2.countP fun e => isAttempt e) ≤ 30) ∧
    (create_client (fun _ => false)).1 = Except.error (PyErr.nameError "timeout") ∧
    ((create_client (fun _ => false)).2.countP fun e => isAttempt e) = 30 ∧
    ((create_client (fun _ => false)).2.countP fun e => e = Ev.sleep 1) = 30 := by
  refine ⟨?_, rfl, by decide, by decide⟩
  intro ok
  have h := create_clientLoop_attempts_le ok 30 0
  simpa [create_client, isAttempt] using h

/-- Claim C4 counterexample: with the external `zip` utility exiting
non-zero, `compress` raises `CalledProcessError` from `subprocess.check_call`
before the `os.chdir(olddir)` line runs (there is no try/finally in the
source), so the working directory after the step is the temp directory, not
the directory from before the step. -/
theorem compress_cwd_counterexample :
    (compress false 0 fs0 "/tmpdir" "out" "x-pack-2.3.4.zip" "data").2.1.cwd
        = "/tmpdir" ∧
    ¬ (compress false 0 fs0 "/tmpdir" "out" "x-pack-2.3.4.zip" "data").2.1.cwd
        = fs0.cwd := by
  decide

/-- Claim C4 (amended): the working directory is restored after `compress`
when the zip utility exits zero; when it exits non-zero, the
`CalledProcessError` propagates and the working directory is left at the
temp directory. -/
theorem compress_cwd_restored_on_success (zc : Nat) (fs : Fs)
    (tmp out zf dir : String) :
    (compress true zc fs tmp out zf dir).2.1.cwd = fs.cwd ∧
    (compress true zc fs tmp out zf dir).1 = Except.ok () ∧
    (compress false zc fs tmp out zf dir).2.1.cwd = tmp := by
  by_cases h : (fs.files (os_path_join (os_path_abspath fs.cwd out) zf)).isSome <;>
    simp [compress, h]

/-- Claim C5 counterexample: `run_plugin` uses `subprocess.check_call`, so a
non-zero exit of the plugin-management subcommand (for example because the
plugin was never present) raises `CalledProcessError` out of
`remove_plugin`; it does not fail silently. -/
theorem remove_plugin_counterexample :
    (remove_plugin false "2.3.4" "backwards/elasticsearch-2.3.4" "license").1 =
      Except.error (PyErr.calledProcessError
        ["backwards/elasticsearch-2.3.4/bin/plugin", "remove", "license"]) := by
  rfl

/-- Claim C5 (amended): `remove_plugin` succeeds silently exactly when the
external plugin subcommand exits zero; a non-zero exit raises
`CalledProcessError` (aborting the iteration), so removal is silent only by
virtue of the external tool's own exit status. -/
theorem remove_plugin_checked_call (exitOk : Bool) (version rd nm : String) :
    (remove_plugin exitOk version rd nm).1 =
      (if exitOk then Except.ok ()
       else Except.error (PyErr.calledProcessError
         [os_path_join rd "bin/plugin", "remove", nm])) := by
  cases exitOk <;> simp [remove_plugin, run_plugin]

/-- Claim C9: a version string with exactly three dot/dash-separated
components parses to a four-part tuple whose fourth component is the
case-folded qualifier `"ga"`. -/
theorem parse_version_three_components (v : String)
    (h3 : (splitDotDash v.data []).length = 3) :
    (parse_version v).length = 4 ∧ (parse_version v)[3]? = some "ga" := by
  have hga : pyLower "GA" = "ga" := by decide
  constructor
  · simp [parse_version, h3]
  · simp [parse_version, h3, List.map_append,
      List.getElem?_append_right, List.length_map, hga]

/-- Witness for C9 at the spec's example `"2.3.4"`. -/
theorem parse_version_three_components_witness :
    (splitDotDash "2.3.4".data []).length = 3 ∧
    ((parse_version "2.3.4").length = 4 ∧
     (parse_version "2.3.4")[3]? = some "ga") :=
  ⟨by decide, parse_version_three_components "2.3.4" (by decide)⟩

/-- Claim C10 (implicit): the order `parse_version` induces is
lexicographic over the lowercased component strings, not numeric, so it
disagrees with numeric version order on multi-digit components:
`parse_version("1.10.0") < parse_version("1.2.0")`, and in particular
`"2.10.0"` compares below the threshold `"2.3.0"`, so the main loop's
version filter skips it with only the skip log message. -/
theorem parse_version_lexicographic_not_numeric (env : Env) (fs : Fs)
    (rd od tmp : String) :
    pyListLt (parse_version "1.10.0") (parse_version "1.2.0") = true ∧
    pyListLt (parse_version "2.10.0") (parse_version "2.3.0") = true ∧
    oneVersion env fs rd od "2.10.0" tmp =
      (Except.ok (), fs,
       [Ev.log ("version is 2.10.0 but shield supports native realm oly" ++
         " from 2.3.0 on. nothing to do.")]) := by
  refine ⟨by decide, by decide, ?_⟩
  have h4 : (parse_version "2.10.0").length = 4 := by decide
  have hlt : pyListLt (parse_version "2.10.0") (parse_version "2.3.0") = true := by
    decide
  simp [oneVersion, h4, hlt]

/-- Claim C7: a listed version whose parsed tuple orders below the parsed
threshold `2.3.0` is skipped by the per-version loop with just the log
message: the iteration returns normally (no error), leaves the filesystem
untouched, and its trace holds no port probe, node spawn, plugin command,
shell command or HTTP call. -/
theorem skipped_version_below_threshold (env : Env) (fs : Fs)
    (rd od v tmp : String) (h4 : (parse_version v).length = 4)
    (hlt : pyListLt (parse_version v) (parse_version "2.3.0") = true) :
    oneVersion env fs rd od v tmp =
      (Except.ok (), fs,
       [Ev.log ("version is " ++ v ++
         " but shield supports native realm oly from 2.3.0 on. nothing to do.")]) := by
  simp [oneVersion, h4, hlt]

/-- Witness for C7 at version `"2.2.0"`. -/
theorem skipped_version_below_threshold_witness :
    ((parse_version "2.2.0").length = 4 ∧
     pyListLt (parse_version "2.2.0") (parse_version "2.3.0") = true) ∧
    oneVersion envAllOk fs0 "backwards" "out" "2.2.0" "/tmp/t" =
      (Except.ok (), fs0,
       [Ev.log ("version is " ++ "2.2.0" ++
         " but shield supports native realm oly from 2.3.0 on. nothing to do.")]) :=
  ⟨⟨by decide, by decide⟩,
   skipped_version_below_threshold envAllOk fs0 "backwards" "out" "2.2.0" "/tmp/t"
     (by decide) (by decide)⟩

/-- What one successful `compress_index` run does, from any starting state:
it returns normally, restores the working directory, leaves the written
content at the deterministic archive path and every other path untouched,
and — when an archive already existed there — its trace is exactly
delete, chdir in, zip, chdir back. -/
theorem compress_run_facts (zc : Nat) (fs : Fs) (version tmp out : String) :
    (compress_index true zc fs version tmp out).1 = Except.ok () ∧
    (compress_index true zc fs version tmp out).2.1.cwd = fs.cwd ∧
    (compress_index true zc fs version tmp out).2.1.files
      (zipPath fs.cwd out version) = some zc ∧
    (∀ p, p ≠ zipPath fs.cwd out version →
      (compress_index true zc fs version tmp out).2.1.files p = fs.files p) ∧
    ((fs.files (zipPath fs.cwd out version)).isSome = true →
      (compress_index true zc fs version tmp out).2.2 =
        [Ev.removeFile (zipPath fs.cwd out version), Ev.chdir tmp,
         Ev.zipCall (zipPath fs.cwd out version) "data", Ev.chdir fs.cwd]) := by
  simp only [compress_index, compress, zipPath]
  set zp := os_path_join (os_path_abspath fs.cwd out) ("x-pack-" ++ version ++ ".zip")
    with hzp
  by_cases h : (fs.files zp).isSome = true
  · refine ⟨by simp [h], by simp [h], by simp [h], fun p hp => ?_, fun _ => by simp [h]⟩
    simp [h, if_neg hp]
  · refine ⟨by simp [h], by simp [h], by simp [h], fun p hp => ?_,
      fun hpre => absurd hpre h⟩
    simp [h, if_neg hp]

/-- Claim C8: archiving is idempotent. After a first successful
`compress_index` run for a version, a second successful run deletes the
pre-existing archive before invoking `zip` (so the zip utility never sees
the stale file), succeeds, leaves the second run's content as the only
value at the deterministic path `<output-dir>/x-pack-<version>.zip`, and
touches no other path. The second run's full trace is stated, showing the
delete happening before the `zip` call. -/
theorem compress_index_idempotent (fs : Fs) (version tmp out : String)
    (c1 c2 : Nat) :
    (compress_index true c2
        (compress_index true c1 fs version tmp out).2.1 version tmp out).1 =
      Except.ok () ∧
    (compress_index true c2
        (compress_index true c1 fs version tmp out).2.1 version tmp out).2.1.files
        (zipPath fs.cwd out version) = some c2 ∧
    (∀ p, p ≠ zipPath fs.cwd out version →
      (compress_index true c2
          (compress_index true c1 fs version tmp out).2.1 version tmp out).2.1.files p =
        (compress_index true c1 fs version tmp out).2.1.files p) ∧
    (compress_index true c2
        (compress_index true c1 fs version tmp out).2.1 version tmp out).2.2 =
      [Ev.removeFile (zipPath fs.cwd out version), Ev.chdir tmp,
       Ev.zipCall (zipPath fs.cwd out version) "data", Ev.chdir fs.cwd] := by
  obtain ⟨-, hcwd, hfile, -, -⟩ := compress_run_facts c1 fs version tmp out
  obtain ⟨hok2, -, hfile2, hother2, htrace2⟩ :=
    compress_run_facts c2 ((compress_index true c1 fs version tmp out).2.1)
      version tmp out
  rw [hcwd] at hfile2 hother2 htrace2
  refine ⟨hok2, hfile2, hother2, ?_⟩
  rw [htrace2 (by rw [hfile]; rfl)]

/-- The pre-node steps of the try block spawn plugin-manager and shell
processes, but never the node. -/
theorem preNodeSteps_no_spawn (env : Env) (v rd : String) :
    (preNodeSteps env v rd).2.any isSpawn = false := by
  cases hA : env.removeLicenseOk <;> cases hB : env.removeShieldOk <;>
  cases hC : env.rmConfigOk <;> cases hD : env.installLicenseOk <;>
  cases hE : env.installShieldOk <;> cases hF : env.useraddOk <;>
  simp [preNodeSteps, seqE, remove_plugin, install_plugin, run_plugin, run,
        isSpawn, hA, hB, hC, hD, hE, hF]

/-- When `start_node` raises (a port probe connected), the node was not
spawned. -/
theorem start_node_no_spawn_on_error (env : Env) (v rd dd : String) (e : PyErr)
    (h : (start_node env v rd dd).1 = Except.error e) :
    (start_node env v rd dd).2.any isSpawn = false := by
  cases hbh : env.busyHttp <;> cases hbt : env.busyTransport <;>
    simp [start_node, hbh, hbt, isSpawn] at h ⊢

/-- In any completed try block whose trace spawned the node, either the
Python variable `node` is still non-None on exit (so the `finally` block
will terminate it) or a terminate signal is already in the trace. -/
theorem tryBody_spawn_terminate (env : Env) (fs : Fs) (v rd td dd od : String) :
    (tryBody env fs v rd td dd od).2.2.2.any isSpawn = true →
    (tryBody env fs v rd td dd od).2.1 = true ∨
      Ev.terminate ∈ (tryBody env fs v rd td dd od).2.2.2 := by
  unfold tryBody
  split
  next e evs heq =>
    intro h
    have hns := preNodeSteps_no_spawn env v rd
    rw [heq] at hns
    dsimp only at hns h
    rw [hns] at h
    exact absurd h (by simp)
  next evsPre heqPre =>
    split
    next e evs heq =>
      intro h
      have hns := preNodeSteps_no_spawn env v rd
      rw [heqPre] at hns
      have hsn := start_node_no_spawn_on_error env v rd dd e (by rw [heq])
      rw [heq] at hsn
      dsimp only at hns hsn h
      rw [List.any_append, hns, hsn] at h
      exact absurd h (by simp)
    next evsSn heqSn =>
      split
      next e evs heq => exact fun _ => Or.inl rfl
      next evsCc heqCc =>
        split
        next e evs heq => exact fun _ => Or.inl rfl
        next evsGen heqGen =>
          intro h
          refine Or.inr ?_
          simp [shutdown_node, List.mem_append]

/-- Claim C1: in a per-version iteration of `main`, whenever the iteration
ends in an exception and the temporary directory had been created, the
`finally` block still removes the temporary directory, and if the node had
been spawned it receives a terminate signal (either from the normal
`shutdown_node` call or from the `finally` block when `node` is still
non-None). -/
theorem cleanup_on_error (env : Env) (fs : Fs) (rd od v tmp : String) (e : PyErr)
    (herr : (oneVersion env fs rd od v tmp).1 = Except.error e)
    (hmk : Ev.mkdtemp tmp ∈ (oneVersion env fs rd od v tmp).2.2) :
    Ev.rmtree tmp ∈ (oneVersion env fs rd od v tmp).2.2 ∧
    ((oneVersion env fs rd od v tmp).2.2.any isSpawn = true →
      Ev.terminate ∈ (oneVersion env fs rd od v tmp).2.2) := by
  by_cases hc1 : (parse_version v).length = 4
  · by_cases hc2 : pyListLt (parse_version v) (parse_version "2.3.0") = true
    · simp [oneVersion, hc1, hc2] at herr
    · by_cases hc3 : env.releaseDirExists = true
      · simp only [oneVersion, hc1, hc2, hc3, if_true, if_false, eq_self_iff_true,
          Bool.false_eq_true] at hmk ⊢
        refine ⟨by simp, ?_⟩
        intro h
        cases hlive : (tryBody env fs v (os_path_join rd ("elasticsearch-" ++ v))
            tmp (os_path_join tmp "data") od).2.1
        · simp only [hlive, Bool.false_eq_true, if_false, List.nil_append,
            List.any_append, List.any_cons, List.any_nil, isSpawn,
            Bool.or_eq_true, Bool.false_eq_true, or_false, false_or] at h
          rcases tryBody_spawn_terminate env fs v
              (os_path_join rd ("elasticsearch-" ++ v)) tmp
              (os_path_join tmp "data") od h with hl | hm
          · rw [hlive] at hl
            exact absurd hl (by simp)
          · simp [List.mem_append, hm]
        · simp [hlive, shutdown_node, List.mem_append]
      · simp [oneVersion, hc1, hc2, hc3] at hmk
  · simp [oneVersion, hc1] at hmk

/-- Witness for C1: the user-creation PUT returns HTTP 500 after the node
was started; the iteration raises, yet the trace shows the temp directory
removed and the node terminated. -/
theorem cleanup_on_error_witness :
    ((oneVersion envPopFail fs0 "backwards" "out" "2.3.4" "/tmp/t").1 =
       Except.error (PyErr.exc
         "PUT http://localhost:9200/_shield/role/bwc_test_role did not succeed!") ∧
     Ev.mkdtemp "/tmp/t" ∈
       (oneVersion envPopFail fs0 "backwards" "out" "2.3.4" "/tmp/t").2.2) ∧
    (Ev.rmtree "/tmp/t" ∈
       (oneVersion envPopFail fs0 "backwards" "out" "2.3.4" "/tmp/t").2.2 ∧
     ((oneVersion envPopFail fs0 "backwards" "out" "2.3.4" "/tmp/t").2.2.any isSpawn
         = true →
       Ev.terminate ∈
         (oneVersion envPopFail fs0 "backwards" "out" "2.3.4" "/tmp/t").2.2)) :=
  ⟨⟨rfl, by decide⟩,
   cleanup_on_error envPopFail fs0 "backwards" "out" "2.3.4" "/tmp/t"
     (PyErr.exc
       "PUT http://localhost:9200/_shield/role/bwc_test_role did not succeed!")
     rfl (by decide)⟩

/-- Claim C2 counterexample: with HTTP port 9200 busy, the iteration does
raise the port-already-in-use error, but processes have already been
spawned before the probe: the `bin/plugin remove license` subprocess is in
the trace. The probe only precedes the node spawn, not every spawn. -/
theorem port_busy_spawns_plugin_counterexample :
    (oneVersion envBusyHttp fs0 "backwards" "out" "2.3.4" "/tmp/t").1 =
      Except.error (PyErr.exc
        "Elasticsearch instance already running on port 9200") ∧
    Ev.pluginCmd "backwards/elasticsearch-2.3.4" "remove" "license" ∈
      (oneVersion envBusyHttp fs0 "backwards" "out" "2.3.4" "/tmp/t").2.2 :=
  ⟨rfl, by decide⟩

/-- Claim C2 (amended): if a probe connection to either configured port
succeeds (and the steps before `start_node` succeed, so control reaches the
probe), the iteration raises the port-already-in-use error for the first
busy port and the node process is never spawned; the plugin-management and
user-setup subprocesses earlier in the iteration have already run. -/
theorem port_busy_fails_before_node_spawn (env : Env) (fs : Fs)
    (rd od v tmp : String)
    (h4 : (parse_version v).length = 4)
    (hge : pyListLt (parse_version v) (parse_version "2.3.0") = false)
    (hrel : env.releaseDirExists = true)
    (h1 : env.removeLicenseOk = true) (h2 : env.removeShieldOk = true)
    (h3 : env.rmConfigOk = true) (h5 : env.installLicenseOk = true)
    (h6 : env.installShieldOk = true) (h7 : env.useraddOk = true)
    (hbusy : env.busyHttp = true ∨ env.busyTransport = true) :
    (oneVersion env fs rd od v tmp).1 =
      Except.error (PyErr.exc
        (if env.busyHttp then "Elasticsearch instance already running on port 9200"
         else "Elasticsearch instance already running on port 9300")) ∧
    (oneVersion env fs rd od v tmp).2.2.any isSpawn = false := by
  cases hbh : env.busyHttp
  · have hbt : env.busyTransport = true := by
      rcases hbusy with h | h
      · rw [hbh] at h; exact absurd h (by simp)
      · exact h
    constructor <;>
      simp [oneVersion, tryBody, preNodeSteps, seqE, remove_plugin,
        install_plugin, run_plugin, run, start_node, shutdown_node, isSpawn,
        h4, hge, hrel, h1, h2, h3, h5, h6, h7, hbh, hbt]
  · constructor <;>
      simp [oneVersion, tryBody, preNodeSteps, seqE, remove_plugin,
        install_plugin, run_plugin, run, start_node, shutdown_node, isSpawn,
        h4, hge, hrel, h1, h2, h3, h5, h6, h7, hbh]

/-- Witness for the amended C2 at a concrete busy-HTTP-port environment. -/
theorem port_busy_fails_before_node_spawn_witness :
    (((parse_version "2.3.4").length = 4 ∧
      pyListLt (parse_version "2.3.4") (parse_version "2.3.0") = false ∧
      envBusyHttp.releaseDirExists = true ∧
      (envBusyHttp.busyHttp = true ∨ envBusyHttp.busyTransport = true)) ∧
     ((oneVersion envBusyHttp fs0 "backwards" "out" "2.3.4" "/tmp/t").1 =
        Except.error (PyErr.exc
          (if envBusyHttp.busyHttp
           then "Elasticsearch instance already running on port 9200"
           else "Elasticsearch instance already running on port 9300")) ∧
      (oneVersion envBusyHttp fs0 "backwards" "out" "2.3.4" "/tmp/t").2.2.any isSpawn
        = false)) :=
  ⟨⟨by decide, by decide, by decide, Or.inl (by decide)⟩,
   port_busy_fails_before_node_spawn envBusyHttp fs0 "backwards" "out" "2.3.4"
     "/tmp/t" (by decide) (by decide) (by decide) (by decide) (by decide)
     (by decide) (by decide) (by decide) (by decide) (Or.inl (by decide))⟩

end Bwc
